import Mathlib

/-!
Shallow embedding of the NGNX.VIEW.Registry state machine and the
HTMLReferenceElement event-compression manager from
src/src/reference/HTMLReferenceElement.js, together with proofs about the
behaviour the specification ascribes to them.

Conventions used throughout:

* JavaScript strings are Lean `String`s; `null`/`undefined` values are
  represented with `Option`.
* Functions stored in configuration objects (state handlers, hooks) are
  defunctionalized: the model records their invocation in an event log
  instead of running arbitrary code, and a pre-state hook is represented by
  the synchronous result it returns (`true` = continue, `false` = abort),
  mirroring `NGN.coalesce(hook(...), true)` in the source.
* Thrown JavaScript errors are modelled as `Option String` / `Except String`
  results carrying the error message.
* `NGN.Tasks` (an external collaborator consumed by the source) runs the
  task list sequentially in insertion order and `tasks.abort()` prevents all
  subsequent tasks from running; the task sequence of the state setter is
  inlined accordingly (the source comment reads
  "Run tasks sequentially to assure order").
-/

namespace ChassisX

/-- JavaScript `String.prototype.trim`, modelled over the character list
(the source applies it in `updateState` via `value.toString().trim()`). -/
def jsTrim (s : String) : String :=
  String.mk (((s.toList.dropWhile Char.isWhitespace).reverse.dropWhile
    Char.isWhitespace).reverse)

/-- Observable effects of a state transition on a view registry: hook and
handler invocations and the notifications emitted on the registry's scoped
event channel. -/
inductive Ev where
  /-- A pre-state hook function was called (scope is a state name or the
  wildcard). -/
  | hookInvoked (scope : String)
  /-- `state.preprocess` was emitted for the given scope. -/
  | preprocess (scope : String)
  /-- The state handler `_states[name]` was called. -/
  | handlerInvoked (name : String)
  /-- `state.changed` was emitted with the change object `(old, new)`. -/
  | stateChanged (oldState newState : String)
  /-- A post-state hook function was called. -/
  | postHookInvoked (scope : String)
  /-- `state.postprocess` was emitted for the given scope. -/
  | postprocess (scope : String)
  /-- `parent.state.changed` was re-emitted by the child registry bridge. -/
  | parentStateChanged (oldState newState : String)
  deriving DecidableEq, Repr

/-- The state-machine-relevant data of an `NGNX.VIEW.Registry` instance.
Field names follow the private members of the source constructor:
`curState` is `_state`, `prevState` is `_previousstate`, `states` is the key
set of `_states` (every configured value is a function, so
`managesState` reduces to key membership), `prestates` maps a hook key to
the defunctionalized synchronous hook result, `poststates` is the key set of
`_poststates`, and `reactionsCfg` is `_reactions`. -/
structure Registry where
  states : List String
  prestates : Option (List (String × Bool))
  poststates : Option (List String)
  curState : String
  prevState : Option String
  initialstate : String
  reactionsCfg : Option (List (String × String))
  deriving DecidableEq, Repr

/-- The `state` getter: `NGN.coalesce(this._state, 'default')`; `_state` is
initialized to the string `'default'` and only ever assigned strings, so the
coalesce is the identity here. -/
def stateGet (r : Registry) : String := r.curState

/-- `managesState`: `this._states.hasOwnProperty(state) && NGN.isFn(...)`. -/
def managesState (r : Registry) (s : String) : Bool := r.states.contains s

/-- `managesPreState`: `null` check on `_prestates` followed by
`hasOwnProperty` (all stored values are functions). -/
def managesPreState (r : Registry) (s : String) : Bool :=
  match r.prestates with
  | none => false
  | some l => (l.lookup s).isSome

/-- `managesPostState`: `null` check on `_poststates` followed by
`hasOwnProperty`. -/
def managesPostState (r : Registry) (s : String) : Bool :=
  match r.poststates with
  | none => false
  | some l => l.contains s

/-- The defunctionalized pre-state hook stored for a key, if any. -/
def prestateHook (r : Registry) (s : String) : Option Bool :=
  r.prestates.bind (fun l => l.lookup s)

/-- Mutable state threaded through one invocation of the `state` setter:
the registry, the single-use `updated` flag (`let updated = false`), the
event log, and a pending thrown error. -/
structure UpdState where
  reg : Registry
  updated : Bool
  log : List Ev
  err : Option String
  deriving DecidableEq, Repr

/-- Result of one `state` setter invocation (or of a dispatched handler):
the updated registry, the events produced, and the thrown error if any. -/
structure SetResult where
  reg : Registry
  log : List Ev
  err : Option String
  deriving DecidableEq, Repr

/-- The events appended by the post-state section of `updateState`: the
global (`'*'`) hook and its `state.postprocess` notification first, then the
hook specific to the (untrimmed) assigned value. -/
def postStateEvents (r : Registry) (value : String) : List Ev :=
  (if managesPostState r "*" then [.postHookInvoked "*", .postprocess "*"] else [])
    ++ (if managesPostState r value then [.postHookInvoked value, .postprocess value] else [])

/-- The `updateState` closure of the `state` setter. Guarded by the
single-use `updated` flag, it records `previousState`, stores the trimmed
value into `_state`, invokes the state handler looked up under the trimmed
name (a lookup miss makes the call `this._states[this._state](change)`
throw a TypeError), emits `state.changed`, and runs the post-state hooks.
A pending thrown error stops execution, hence the `err` guard. -/
def updateState (value : String) (st : UpdState) : UpdState :=
  if st.err.isSome then st
  else if st.updated then st
  else
    let prev := stateGet st.reg
    let newState := jsTrim value
    let r := { st.reg with prevState := some prev, curState := newState }
    if r.states.contains newState then
      { reg := r, updated := true,
        log := st.log ++ [.handlerInvoked newState, .stateChanged prev newState]
          ++ postStateEvents r value,
        err := none }
    else
      { reg := r, updated := true, log := st.log,
        err := some "TypeError: state handler is not a function" }

/-- The final task of the setter task list: `tasks.add(..., updateState)`. -/
def runUpdateTask (value : String) (st : UpdState) : SetResult :=
  let st1 := updateState value st
  ⟨st1.reg, st1.log, st1.err⟩

/-- The state-specific pre-state task. The hook is invoked with
`(currentState, proposedState, proceed)`; in the synchronous case a `false`
return calls `tasks.abort()` (no `state.preprocess`, no later task), any
other result emits `state.preprocess` and calls `next()`. -/
def runSpecificPrestate (value : String) (st : UpdState) : SetResult :=
  match prestateHook st.reg value with
  | none => runUpdateTask value st
  | some cont =>
    let st1 := { st with log := st.log ++ [Ev.hookInvoked value] }
    if cont then
      runUpdateTask value { st1 with log := st1.log ++ [Ev.preprocess value] }
    else
      ⟨st1.reg, st1.log, st1.err⟩

/-- The global (`'*'`) pre-state task, which the source adds to the task
list before the state-specific one. -/
def runGlobalPrestate (value : String) (st : UpdState) : SetResult :=
  match prestateHook st.reg "*" with
  | none => runSpecificPrestate value st
  | some cont =>
    let st1 := { st with log := st.log ++ [Ev.hookInvoked "*"] }
    if cont then
      runSpecificPrestate value { st1 with log := st1.log ++ [Ev.preprocess "*"] }
    else
      ⟨st1.reg, st1.log, st1.err⟩

/-- The `state` setter (`set state (value)`). The assigned value is
`NGN.coalesce(value, this.initialstate, 'default')`; a no-op when equal to
the current state; an unmanaged state name throws; otherwise, when no
pre-state hook is registered for `'*'` or the value, `updateState()` runs
synchronously (a thrown handler error then propagates before the task list
is even built); in every non-throwing case the task list (global pre-state,
specific pre-state, update task) still runs sequentially, the update task
being a no-op when the direct call already ran. -/
def setState (r : Registry) (value? : Option String) : SetResult :=
  let value := value?.getD r.initialstate
  if stateGet r == value then ⟨r, [], none⟩
  else if !managesState r value then
    ⟨r, [], some (value ++ " is not state managed by the View Registry.")⟩
  else
    let st0 : UpdState := ⟨r, false, [], none⟩
    if !managesPreState r "*" && !managesPreState r value then
      let st1 := updateState value st0
      if st1.err.isSome then ⟨st1.reg, st1.log, st1.err⟩
      else runGlobalPrestate value st1
    else
      runGlobalPrestate value st0

/-! ### Reactions (parent cascading) -/

/-- The `reactions` getter: `NGN.coalesce(this._reactions, {})`. -/
def reactionsOf (r : Registry) : List (String × String) := r.reactionsCfg.getD []

/-- The composition of the two subscriptions the constructor installs for a
child: the bridge `parent.on('state.changed', s => this.emit('parent.state.changed', s))`
and the local handler
`this.on('parent.state.changed', s => { if (this.managesReaction(s.new)) this.state = this.reactions[s.new] })`.
`managesReaction` is `this.reactions.hasOwnProperty(state)`. -/
def onParentStateChanged (c : Registry) (oldState newState : String) : SetResult :=
  let bridged : List Ev := [.parentStateChanged oldState newState]
  match (reactionsOf c).lookup newState with
  | some target =>
    let res := setState c (some target)
    ⟨res.reg, bridged ++ res.log, res.err⟩
  | none => ⟨c, bridged, none⟩

/-- Predicate for a `state.changed` event in a log. -/
def isStateChangedEv : Ev → Bool
  | .stateChanged _ _ => true
  | _ => false

/-- One step of the synchronous dispatch of a parent emission to the child:
only `state.changed` notifications reach the child subscriber, and a
pending exception interrupts further dispatch. -/
def childDispatchStep (acc : SetResult) (ev : Ev) : SetResult :=
  match ev with
  | .stateChanged o n =>
    if acc.err.isSome then acc
    else
      let res := onParentStateChanged acc.reg o n
      ⟨res.reg, acc.log ++ res.log, res.err⟩
  | _ => acc

/-- Synchronous dispatch of a parent registry's emissions to a child: each
`state.changed` notification published by the parent invokes the child's
subscriber chain in order (the event channel delivers synchronously). -/
def dispatchToChild (c : Registry) (parentLog : List Ev) : SetResult :=
  parentLog.foldl childDispatchStep ⟨c, [], none⟩

/-- A parent transition followed by the child reaction it triggers:
`p.state = value` runs the setter on the parent, and every `state.changed`
it emits is delivered to the child subscriber installed by the child's
constructor. -/
def reactionCascade (p c : Registry) (value : String) : SetResult × SetResult :=
  let pres := setState p (some value)
  (pres, dispatchToChild c pres.log)

/-! ### Initial state -/

/-- The constructor's guard for scheduling the deferred initial transition:
`this.initialstate !== this._state && this.managesState(this.initialstate)`
(at this point `_state` is the string `'default'`). -/
def initialStateScheduled (r : Registry) : Bool :=
  r.initialstate != r.curState && managesState r r.initialstate

/-- The body of the callback passed to `NGNX.util.requeue` by the
constructor: `this._state = this.initialstate; this._states[this._state]()`.
It assigns the state directly and invokes the handler with no change
argument; it does not touch `_previousstate`, runs no hooks, and emits
nothing. -/
def initialStateTask (r : Registry) : SetResult :=
  let r1 := { r with curState := r.initialstate }
  if r1.states.contains r1.curState then
    ⟨r1, [.handlerInvoked r1.curState], none⟩
  else
    ⟨r1, [], some "TypeError: state handler is not a function"⟩

/-! ### Property bridging -/

/-- A JavaScript field value; `none` is `null`/`undefined`. -/
abbrev JsVal := Option String

/-- Notifications produced by the property bridge on the registry channel. -/
inductive PropEv where
  /-- `property.changed` with payload property/old/new. -/
  | propertyChanged (field : String) (oldVal newVal : JsVal)
  /-- `property.<field>.changed` with payload old/new. -/
  | fieldChanged (field : String) (oldVal newVal : JsVal)
  deriving DecidableEq, Repr

/-- Emission of `property.changed` together with the re-emission performed
by the constructor's own subscriber
`this.on('property.changed', c => this.emit('property.' + c.property + '.changed', ...))`,
which the channel runs synchronously inside the first emit. -/
def propertyChangedEmit (field : String) (oldVal newVal : JsVal) : List PropEv :=
  [.propertyChanged field oldVal newVal, .fieldChanged field oldVal newVal]

/-- The `field.update` subscriber: emits only when `change.old !== change.new`. -/
def onFieldUpdate (field : String) (oldVal newVal : JsVal) : List PropEv :=
  if oldVal ≠ newVal then propertyChangedEmit field oldVal newVal else []

/-- The `field.create` subscriber: always emits, with `old: null` and
`new: NGN.coalesce(this._properties[change.field])`. -/
def onFieldCreate (field : String) (currentValue : JsVal) : List PropEv :=
  propertyChangedEmit field none currentValue

/-- The `field.delete` subscriber: always emits, with `old: change.value`
and `new: null`. -/
def onFieldDelete (field : String) (value : JsVal) : List PropEv :=
  propertyChangedEmit field value none

/-! ### Reflexes (peer cascading)

Peer registries are identified by reference; the model names them with
numeric identities. `subscriptions` records the peers on whose
`state.changed` topic this registry currently holds a listener (attached by
the constructor or by `createReflex`). -/

/-- Peer identity (JavaScript object identity of the peer registry). -/
abbrev RegId := Nat

/-- One record of the `_reflexes` array: `{ registry, reactions }`. -/
structure Reflex where
  registry : RegId
  reactions : List (String × String)
  deriving DecidableEq, Repr

/-- The reflex-related state of a registry. -/
structure ReflexState where
  reflexes : List Reflex
  subscriptions : List RegId
  deriving DecidableEq, Repr

/-- `getRegistryReflex`: filters `this.reflexes` by peer identity and
returns the single match, or the `{}` sentinel (modelled `none`) when the
filter result does not have length exactly 1. -/
def getRegistryReflex (st : ReflexState) (peer : RegId) : Option Reflex :=
  match st.reflexes.filter (fun rf => rf.registry == peer) with
  | [rf] => some rf
  | _ => none

/-- `getRegistryReflexReactions`: the source returns
`reflexes.length === 0 ? {} : reflexes.reactions` where `reflexes` is the
result of `getRegistryReflex` — a reflex object or the `{}` sentinel. Neither
value has a `length` property, so `undefined === 0` is false and the function
always returns `reflexes.reactions`: the reactions object for a found reflex,
and `undefined` (modelled `none`) for the sentinel. -/
def getRegistryReflexReactions (st : ReflexState) (peer : RegId) :
    Option (List (String × String)) :=
  (getRegistryReflex st peer).map (fun rf => rf.reactions)

/-- `managesReflex`: `Object.keys(reactions).contains(state)`. When
`getRegistryReflexReactions` produced `undefined`, `Object.keys(undefined)`
throws a TypeError. (`contains` is modelled as array membership.) -/
def managesReflex (st : ReflexState) (peer : RegId) (state : String) :
    Except String Bool :=
  match getRegistryReflexReactions st peer with
  | none => .error "TypeError: Cannot convert undefined or null to object"
  | some reactions => .ok (reactions.any (fun kv => kv.1 == state))

/-- `getRegistryReflexIndex`: the source calls
`this.getRegistryReflex(registry).filter(...)`, but `getRegistryReflex`
returns a single reflex object or the `{}` sentinel — never an array — so
the `.filter` call always throws a TypeError. -/
def getRegistryReflexIndex (st : ReflexState) (peer : RegId) :
    Except String Int :=
  match getRegistryReflex st peer with
  | some _ => .error "TypeError: getRegistryReflex(...).filter is not a function"
  | none => .error "TypeError: getRegistryReflex(...).filter is not a function"

/-- `Array.prototype.splice(start, 1, ...)`: removes one element in place
and returns the pair (mutated array, array of removed elements). The source
assigns the RETURN VALUE back to `this._reflexes`, i.e. keeps only the
removed records. -/
def jsSpliceOne (l : List Reflex) (i : Nat) : List Reflex × List Reflex :=
  (l.take i ++ l.drop (i + 1), (l.drop i).take 1)

/-- `createReflex(registry, source, target)` (the peer is assumed truthy;
the `!registry` early warn-return is not modelled). For an absent peer,
`reactions` is `undefined` and `reactions.hasOwnProperty(source)` throws a
TypeError before anything is modified. For a present peer,
`reactions[source] = target` mutates the reactions object shared with the
reflex record, and then `getRegistryReflexIndex` throws its TypeError. -/
def createReflex (st : ReflexState) (peer : RegId) (source target : String) :
    ReflexState × Option String :=
  match getRegistryReflexReactions st peer with
  | none =>
    (st, some "TypeError: Cannot read property hasOwnProperty of undefined")
  | some reactions =>
    let newReactions :=
      if reactions.any (fun kv => kv.1 == source) then
        reactions.map (fun kv => if kv.1 == source then (kv.1, target) else kv)
      else reactions ++ [(source, target)]
    let st1 := { st with
      reflexes := st.reflexes.map (fun rf =>
        if rf.registry == peer then { rf with reactions := newReactions } else rf) }
    match getRegistryReflexIndex st1 peer with
    | .error e => (st1, some e)
    | .ok index =>
      -- dead code: getRegistryReflexIndex always throws
      if 0 ≤ index then
        -- `this._reflexes = this._reflexes.splice(index, 1, reflex)` keeps
        -- only the removed record
        ({ st1 with reflexes := (jsSpliceOne st1.reflexes index.toNat).2 }, none)
      else
        ({ st1 with
            reflexes := st1.reflexes ++ [⟨peer, newReactions⟩],
            subscriptions := st1.subscriptions ++ [peer] }, none)

/-- `removeReflex(registry, state)`. When the reflex is managed,
`delete reactions[state]` mutates the reactions object shared with the
reflex record, and then `let index = this.getRegistryReflexIndex(registry)`
throws its TypeError: the branch that would test
`Object.keys(reactions).length >= 0` (itself always true, so the
subscription-detaching `else` is unreachable twice over) is never entered,
the record stays in `_reflexes`, and `registry.off('state.changed', ...)`
is never called. -/
def removeReflex (st : ReflexState) (peer : RegId) (state : String) :
    ReflexState × Option String :=
  match managesReflex st peer state with
  | .error e => (st, some e)
  | .ok false => (st, none)
  | .ok true =>
    let st1 := { st with
      reflexes := st.reflexes.map (fun rf =>
        if rf.registry == peer then
          { rf with reactions := rf.reactions.filter (fun kv => !(kv.1 == state)) }
        else rf) }
    match getRegistryReflexIndex st1 peer with
    | .error e => (st1, some e)
    | .ok index =>
      -- dead code: getRegistryReflexIndex always throws; and even here the
      -- `Object.keys(reactions).length >= 0` test is always true
      ({ st1 with reflexes := (jsSpliceOne st1.reflexes index.toNat).2 }, none)

/-! ### HTMLReferenceElement: handler wrapping and event compression -/

/-- A DOM element, identified numerically. -/
abbrev El := Nat

/-- Outcome of the wrapper produced by `wrapHandlerMethod` for one incoming
event. -/
inductive HandlerOutcome where
  /-- `event.referenceElement` was set to the derived element and the user
  handler was invoked. -/
  | invoked (referenceElement : El)
  /-- A JavaScript error was raised before the user handler ran. -/
  | jsError (msg : String)
  deriving DecidableEq, Repr

/-- `wrapHandlerMethod`: the wrapper queries the elements matching the
original selector (`matches`), scans them for identity with the event
target, falls back to `NGN.DOM.findParent(event.target, selector)`
(`findParentResult`, an external DOM walk supplied as data), and when both
fail executes the line `retrun` — a bare undeclared identifier, raising a
ReferenceError instead of returning. Otherwise it attaches the derived
element and calls the user handler. -/
def wrapHandlerMethod (selMatches : List El) (findParentResult : Option El)
    (target : El) : HandlerOutcome :=
  let refEl : Option El :=
    if selMatches.contains target then some target else none
  match refEl with
  | some el => .invoked el
  | none =>
    match findParentResult with
    | some el => .invoked el
    | none => .jsError "ReferenceError: retrun is not defined"

/-- Data of `NGN.DOM.getCommonAncestorDetail(elements)` (external
collaborator): the nearest common ancestor and the average/median
tree-distance from it to the matched elements. -/
structure AncestorDetail where
  element : El
  gapAverage : Rat
  gapMedian : Rat
  deriving DecidableEq, Repr

/-- An `HTMLReferenceElement` as far as `getCollapsedDomStructure` is
concerned: the selector's match list, the configured filters, the
`parentNode` relation of the document, the `deepcollapse` flag, and the
ancestor detail the external DOM helper would compute. -/
structure RefModel where
  matched : List El
  filters : List (El → Bool)
  parentNode : El → El
  deepcollapse : Bool
  detail : AncestorDetail

/-- The `element` getter: `document.querySelectorAll(this.selector)` and
then `null` for no match, the single node for one match, the NodeList
otherwise. -/
def elementGet (m : RefModel) : Option (El ⊕ List El) :=
  match m.matched with
  | [] => none
  | [x] => some (Sum.inl x)
  | xs => some (Sum.inr xs)

/-- `NGN.slice(o) = Array.prototype.slice.call(o)` (external collaborator):
throws on `null`; a lone DOM element has no `length` property, so slicing
it yields the empty array; a NodeList converts to the array of its
elements. -/
def ngnSlice : Option (El ⊕ List El) → Except String (List El)
  | none => .error "TypeError: Cannot convert undefined or null to object"
  | some (Sum.inl _) => .ok []
  | some (Sum.inr xs) => .ok xs

/-- The `elements` getter: `NGN.slice(this.element)` filtered through every
configured filter function (a single `false` drops the element). -/
def elementsGet (m : RefModel) : Except String (List El) :=
  (ngnSlice (elementGet m)).map
    (fun l => l.filter (fun e => m.filters.all (fun f => f e)))

/-- What an event operation ends up attaching its listeners to. -/
inductive DomTarget where
  /-- `this.element` was returned while it is `null`. -/
  | nullTarget
  /-- A single DOM element (listeners go on the element itself). -/
  | single (el : El)
  /-- An array of DOM nodes (one listener per entry). -/
  | many (els : List El)
  deriving DecidableEq, Repr

/-- Coercion of the `element` getter value to a `DomTarget`. -/
def elementToTarget : Option (El ⊕ List El) → DomTarget
  | none => .nullTarget
  | some (Sum.inl x) => .single x
  | some (Sum.inr xs) => .many xs

/-- `NGN.dedupe` (external collaborator): removes duplicates, keeping first
occurrences in order. -/
def dedupe (l : List El) : List El := l.eraseDups

/-- `getCollapsedDomStructure`. The guard `if (elements <= 1)` compares the
ARRAY itself with a number: JavaScript coerces the array to a string, which
for a non-empty array of DOM elements is non-numeric, making the comparison
`NaN <= 1` (false), while the empty array coerces to `0 <= 1` (true); the
guard therefore holds exactly when the slice result is empty, and then
`this.element` is returned. The simple-compression ratio test
`parentNodes.length / elements.length < 0.5` is exact as `2*p < e` here.
In the complex branch, `if (ancestor === document.body)` compares the
detail RECORD (not its `.element`) with a DOM element, which is never
identical, so that guard never fires. -/
def getCollapsedDomStructure (m : RefModel) : Except String DomTarget := do
  let els ← elementsGet m
  if els.isEmpty then
    return elementToTarget (elementGet m)
  let parentNodes := dedupe (els.map m.parentNode)
  if parentNodes.length * 2 < els.length then
    return .many parentNodes
  if !m.deepcollapse then
    return .many els
  let ancestor := m.detail
  if ancestor.gapAverage < ancestor.gapMedian ∨ (10 : Rat) ≤ ancestor.gapAverage then
    return .many els
  if ancestorIsBodyObject then
    return .many els
  return .many [ancestor.element]
where
  /-- The identity comparison of the detail object with `document.body`. -/
  ancestorIsBodyObject : Bool := false

/-! Concrete instances used by counterexamples and witnesses. -/

/-- Registry whose configured state names contain one that is not
trim-invariant. -/
def regWsEx : Registry :=
  ⟨["default", " x"], none, none, "default", none, "default", none⟩

/-- Ordinary registry used by several witnesses. -/
def regAEx : Registry :=
  ⟨["default", "offline", "online"], none, none, "default", none, "default", none⟩

/-- Registry with a global pre-state hook that continues and an `X` hook
that returns `false`. -/
def regHooksEx : Registry :=
  ⟨["default", "X", "Y"], some [("*", true), ("X", false)], none, "default",
    none, "default", none⟩

/-- Parent registry used by the reaction-cascade witness. -/
def regPEx : Registry :=
  ⟨["default", "offline", "online"], none, none, "default", none, "default", none⟩

/-- Child registry configured with reactions, used by the reaction-cascade
witness. -/
def regCEx : Registry :=
  ⟨["default", "connected", "disconnected"], none, none, "default", none,
    "default", some [("online", "connected"), ("offline", "disconnected")]⟩

/-- Reflex state holding a single mapping for peer 7 together with the
listener subscription attached when the reflex was installed. -/
def reflexStEx : ReflexState := ⟨[⟨7, [("online", "connected")]⟩], [7]⟩

/-- Reflex state holding two mappings for peer 7. -/
def reflexStEx2 : ReflexState :=
  ⟨[⟨7, [("online", "connected"), ("offline", "disconnected")]⟩], [7]⟩

/-- Freshly constructed reflex state with no reflex records. -/
def reflexStEmpty : ReflexState := ⟨[], []⟩

/-- Registry with a valid configured initial state distinct from the
default. -/
def regInitEx : Registry :=
  ⟨["default", "offline"], none, none, "default", none, "offline", none⟩

/-- Reference model matching exactly one element. -/
def refEx : RefModel := ⟨[5], [], fun _ => 0, false, ⟨0, 0, 0⟩⟩

/-! Auxiliary lemmas about the state setter. -/

theorem updateState_states_eq (value : String) (st : UpdState) :
    (updateState value st).reg.states = st.reg.states := by
  unfold updateState
  split
  · rfl
  · split
    · rfl
    · dsimp only
      split <;> rfl

theorem updateState_curState (value : String) (st : UpdState) :
    (updateState value st).reg.curState = st.reg.curState ∨
      (updateState value st).reg.curState = jsTrim value := by
  unfold updateState
  split
  · exact Or.inl rfl
  · split
    · exact Or.inl rfl
    · dsimp only
      split <;> exact Or.inr rfl

theorem updateState_updated_or (value : String) (st : UpdState) :
    (updateState value st).updated = true ∨ updateState value st = st := by
  unfold updateState
  split
  · exact Or.inr rfl
  · split
    · exact Or.inr rfl
    · dsimp only
      split <;> exact Or.inl rfl

theorem updateState_of_updated (value : String) (st : UpdState)
    (h : st.updated = true) : updateState value st = st := by
  unfold updateState
  split
  · rfl
  · simp [h]

theorem updateState_idem (value : String) (st : UpdState) :
    updateState value (updateState value st) = updateState value st := by
  rcases updateState_updated_or value st with h | h
  · exact updateState_of_updated value _ h
  · rw [h, h]

theorem updateState_reg_log_irrel (value : String) (st : UpdState) (l : List Ev) :
    (updateState value { st with log := l }).reg = (updateState value st).reg := by
  unfold updateState
  rcases he : st.err.isSome <;> rcases hu : st.updated <;> simp [he, hu]
  split <;> rfl

theorem runSpecificPrestate_reg (value : String) (st : UpdState) :
    (runSpecificPrestate value st).reg = (updateState value st).reg ∨
      (runSpecificPrestate value st).reg = st.reg := by
  unfold runSpecificPrestate runUpdateTask
  split
  · exact Or.inl rfl
  · split
    · exact Or.inl (updateState_reg_log_irrel value st _)
    · exact Or.inr rfl

theorem runGlobalPrestate_reg (value : String) (st : UpdState) :
    (runGlobalPrestate value st).reg = (updateState value st).reg ∨
      (runGlobalPrestate value st).reg = st.reg := by
  unfold runGlobalPrestate
  split
  · exact runSpecificPrestate_reg value st
  · split
    · rcases runSpecificPrestate_reg value
        { st with log := st.log ++ [Ev.hookInvoked "*"] ++ [Ev.preprocess "*"] } with h | h
      · rw [h]
        exact Or.inl (updateState_reg_log_irrel value st _)
      · exact Or.inr h
    · exact Or.inr rfl

theorem runGlobalPrestate_curState (value : String) (st : UpdState) :
    (runGlobalPrestate value st).reg.curState = st.reg.curState ∨
      (runGlobalPrestate value st).reg.curState = jsTrim value := by
  rcases runGlobalPrestate_reg value st with h | h
  · rw [h]
    exact updateState_curState value st
  · rw [h]
    exact Or.inl rfl

theorem childDispatchStep_skip (acc : SetResult) (ev : Ev)
    (h : isStateChangedEv ev = false) : childDispatchStep acc ev = acc := by
  cases ev <;> first | rfl | (exact absurd h (by simp [isStateChangedEv]))

theorem foldl_childDispatchStep_skip (l : List Ev) (acc : SetResult)
    (h : ∀ ev ∈ l, isStateChangedEv ev = false) :
    l.foldl childDispatchStep acc = acc := by
  induction l generalizing acc with
  | nil => rfl
  | cons e t ih =>
    rw [List.foldl_cons, childDispatchStep_skip acc e (h e (by simp))]
    exact ih acc (fun ev hev => h ev (by simp [hev]))

theorem postStateEvents_skip (r : Registry) (value : String) :
    ∀ ev ∈ postStateEvents r value, isStateChangedEv ev = false := by
  intro ev hev
  unfold postStateEvents at hev
  rw [List.mem_append] at hev
  rcases hev with hev | hev <;> split at hev <;>
    simp at hev <;> rcases hev with rfl | rfl <;> rfl

/-- Explicit form of a transition through the setter when no pre-state hook
is configured: the direct `updateState()` call performs the transition and
the task list that still runs afterwards is a no-op. -/
theorem setState_noPrehooks (r : Registry) (v : String)
    (hneq : stateGet r ≠ v) (hman : managesState r v = true)
    (hpre : r.prestates = none) (htrim : jsTrim v = v) :
    setState r (some v) =
      ⟨{ r with prevState := some (stateGet r), curState := v },
        [Ev.handlerInvoked v, Ev.stateChanged (stateGet r) v]
          ++ postStateEvents { r with prevState := some (stateGet r), curState := v } v,
        none⟩ := by
  have hbeq : (stateGet r == v) = false := beq_eq_false_iff_ne.mpr hneq
  have hmem : v ∈ r.states := by simpa [managesState] using hman
  simp [setState, managesPreState, hpre, hbeq, runGlobalPrestate,
    runSpecificPrestate, runUpdateTask, prestateHook, updateState, htrim,
    hmem, hman]

/-! Claims. -/

/-- Claim C1, counterexample. The claim asserts that `state` is always a key
of the configured state map, but the setter stores `value.toString().trim()`
while validating the untrimmed value: with the configured state name
`" x"` (not trim-invariant), the assignment passes `managesState` yet stores
`"x"`, which is not a key, and the subsequent handler lookup throws. -/
theorem c1_counterexample :
    managesState regWsEx " x" = true ∧
    (setState regWsEx (some " x")).reg.curState ∉ regWsEx.states ∧
    (setState regWsEx (some " x")).err.isSome = true := by
  decide

/-- Claim C1, amended: provided every configured state name equals its
trimmed form, the value of `state` after any assignment is a key of the
configured state map; and assigning a state name that is not such a key
throws an error and leaves the registry (hence `state` and `previousState`)
unchanged, with an empty event log (no `state.changed` emission and no hook
invocation). -/
theorem c1_state_invariant (r : Registry) (v : String)
    (hkeys : ∀ s ∈ r.states, jsTrim s = s)
    (hstate : r.curState ∈ r.states) :
    (setState r (some v)).reg.curState ∈ r.states ∧
    (managesState r v = false →
      setState r (some v) =
        ⟨r, [], some (v ++ " is not state managed by the View Registry.")⟩) := by
  constructor
  · unfold setState
    dsimp only [Option.getD]
    split
    · exact hstate
    · split
      · exact hstate
      · rename_i hne hman
        have hv : v ∈ r.states := by
          have : managesState r v = true := by
            rcases h : managesState r v
            · rw [h] at hman
              simp at hman
            · rfl
          simpa [managesState] using this
        have htv : jsTrim v ∈ r.states := by
          rw [hkeys v hv]
          exact hv
        split
        · split
          · rcases updateState_curState v ⟨r, false, [], none⟩ with h | h
            · rw [h]
              exact hstate
            · rw [h]
              exact htv
          · rcases runGlobalPrestate_curState v (updateState v ⟨r, false, [], none⟩) with h | h
            · rw [h]
              rcases updateState_curState v ⟨r, false, [], none⟩ with h2 | h2
              · rw [h2]
                exact hstate
              · rw [h2]
                exact htv
            · rw [h]
              exact htv
        · rcases runGlobalPrestate_curState v ⟨r, false, [], none⟩ with h | h
          · rw [h]
            exact hstate
          · rw [h]
            exact htv
  · intro hman
    have hne : (stateGet r == v) = false := by
      apply beq_eq_false_iff_ne.mpr
      intro he
      rw [← he] at hman
      have : managesState r (stateGet r) = true := by
        simpa [managesState, stateGet] using hstate
      rw [this] at hman
      cases hman
    unfold setState
    dsimp only [Option.getD]
    rw [hne, hman]
    simp

/-- Claim C1, witness for the amended theorem at a concrete registry and an
unmanaged state name. -/
theorem c1_witness :
    ((∀ s ∈ regAEx.states, jsTrim s = s) ∧ regAEx.curState ∈ regAEx.states) ∧
    ((setState regAEx (some "bogus")).reg.curState ∈ regAEx.states ∧
      (managesState regAEx "bogus" = false →
        setState regAEx (some "bogus") =
          ⟨regAEx, [],
            some ("bogus" ++ " is not state managed by the View Registry.")⟩)) :=
  ⟨⟨by decide, by decide⟩, c1_state_invariant regAEx "bogus" (by decide) (by decide)⟩

/-- Claim C2: with pre-state hooks consisting of a continuing global hook and
a state-specific hook for `X` that synchronously returns `false`, assigning
`X` invokes the global hook and then the `X` hook (in that order), aborts,
and leaves the registry unchanged: the `X` state handler is not invoked, no
`state.changed` is emitted, and the update task is skipped. -/
theorem c2_prehook_abort (r : Registry) (X : String) (hX : X ≠ "*")
    (hpre : r.prestates = some [("*", true), (X, false)])
    (hneq : stateGet r ≠ X) (hman : managesState r X = true) :
    setState r (some X) =
      ⟨r, [Ev.hookInvoked "*", Ev.preprocess "*", Ev.hookInvoked X], none⟩ := by
  have hbeq : (stateGet r == X) = false := beq_eq_false_iff_ne.mpr hneq
  have hstar : (X == "*") = false := beq_eq_false_iff_ne.mpr hX
  simp [setState, runGlobalPrestate, runSpecificPrestate, runUpdateTask,
    prestateHook, managesPreState, hpre, hbeq, hstar, hman, List.lookup]

/-- Claim C2, witness at a concrete registry. -/
theorem c2_witness :
    (("X" : String) ≠ "*" ∧ regHooksEx.prestates = some [("*", true), ("X", false)] ∧
      stateGet regHooksEx ≠ "X" ∧ managesState regHooksEx "X" = true) ∧
    setState regHooksEx (some "X") =
      ⟨regHooksEx, [Ev.hookInvoked "*", Ev.preprocess "*", Ev.hookInvoked "X"], none⟩ :=
  ⟨⟨by decide, by decide, by decide, by decide⟩,
    c2_prehook_abort regHooksEx "X" (by decide) (by decide) (by decide) (by decide)⟩

/-- Claim C3: within one invocation of the state setter, signalling
completion any positive number of times applies the transition body exactly
once — iterating the `updateState` closure `n ≥ 1` times equals running it
once, because the single-use `updated` flag makes every further application
a no-op. -/
theorem c3_update_once (value : String) (st : UpdState) (n : ℕ) (h : 1 ≤ n) :
    (updateState value)^[n] st = updateState value st := by
  have aux : ∀ m : ℕ, (updateState value)^[m + 1] st = updateState value st := by
    intro m
    induction m with
    | zero => rw [Function.iterate_one]
    | succ k ih =>
      rw [Function.iterate_succ_apply', ih]
      exact updateState_idem value st
  cases n with
  | zero => cases h
  | succ m => exact aux m

/-- Claim C3, witness: three completion signals at a concrete setter state
equal a single one. -/
theorem c3_witness :
    1 ≤ 3 ∧
      (updateState "online")^[3] ⟨regAEx, false, [], none⟩ =
        updateState "online" ⟨regAEx, false, [], none⟩ :=
  ⟨by decide, c3_update_once "online" ⟨regAEx, false, [], none⟩ 3 (by decide)⟩

/-- Claim C4: when a parent registry completes a transition into a state `v`
that is a key of the child's reactions map, the `state.changed` it emits is
delivered to the child's subscriber chain and the child transitions into the
mapped state `t` (whether or not the child was already in it). -/
theorem c4_reaction_cascade (p c : Registry) (v t : String)
    (hpneq : stateGet p ≠ v) (hpman : managesState p v = true)
    (hppre : p.prestates = none) (hvtrim : jsTrim v = v)
    (hreact : (reactionsOf c).lookup v = some t)
    (hcman : managesState c t = true) (hcpre : c.prestates = none)
    (httrim : jsTrim t = t) :
    stateGet (reactionCascade p c v).2.reg = t := by
  have hp := setState_noPrehooks p v hpneq hpman hppre hvtrim
  show stateGet (dispatchToChild c (setState p (some v)).log).reg = t
  rw [hp]
  unfold dispatchToChild
  rw [show ([Ev.handlerInvoked v, Ev.stateChanged (stateGet p) v]
      ++ postStateEvents { p with prevState := some (stateGet p), curState := v } v)
    = Ev.handlerInvoked v :: Ev.stateChanged (stateGet p) v ::
      postStateEvents { p with prevState := some (stateGet p), curState := v } v from rfl]
  rw [List.foldl_cons, List.foldl_cons]
  rw [childDispatchStep_skip _ (Ev.handlerInvoked v) rfl]
  have hstep : childDispatchStep ⟨c, [], none⟩ (Ev.stateChanged (stateGet p) v)
      = ⟨(onParentStateChanged c (stateGet p) v).reg,
          [] ++ (onParentStateChanged c (stateGet p) v).log,
          (onParentStateChanged c (stateGet p) v).err⟩ := rfl
  rw [hstep]
  rw [foldl_childDispatchStep_skip _ _ (postStateEvents_skip _ _)]
  show stateGet (onParentStateChanged c (stateGet p) v).reg = t
  unfold onParentStateChanged
  rw [hreact]
  dsimp only
  by_cases hct : stateGet c = t
  · have hbt : (stateGet c == t) = true := beq_iff_eq.mpr hct
    show stateGet (setState c (some t)).reg = t
    unfold setState
    dsimp only [Option.getD]
    rw [hbt]
    exact hct
  · rw [setState_noPrehooks c t hct hcman hcpre httrim]
    rfl

/-- Claim C4, witness: the reaction map `online: connected` cascades a parent
transition to `online` into a child transition to `connected`. -/
theorem c4_witness :
    (stateGet regPEx ≠ "online" ∧ managesState regPEx "online" = true ∧
      regPEx.prestates = none ∧ jsTrim "online" = "online" ∧
      (reactionsOf regCEx).lookup "online" = some "connected" ∧
      managesState regCEx "connected" = true ∧ regCEx.prestates = none ∧
      jsTrim "connected" = "connected") ∧
    stateGet (reactionCascade regPEx regCEx "online").2.reg = "connected" :=
  ⟨⟨by decide, by decide, by decide, by decide, by decide, by decide,
      by decide, by decide⟩,
    c4_reaction_cascade regPEx regCEx "online" "connected" (by decide)
      (by decide) (by decide) (by decide) (by decide) (by decide) (by decide)
      (by decide)⟩

/-- Claim C5: a `field.update` notification with identical old and new
values produces no `property.changed` and no `property.<field>.changed`
emission, while `field.create` and `field.delete` notifications always
produce both emissions regardless of value equality. -/
theorem c5_property_emission_asymmetry :
    (∀ f v, onFieldUpdate f v v = []) ∧
    (∀ f cur, onFieldCreate f cur =
      [PropEv.propertyChanged f none cur, PropEv.fieldChanged f none cur]) ∧
    (∀ f v, onFieldDelete f v =
      [PropEv.propertyChanged f v none, PropEv.fieldChanged f v none]) := by
  refine ⟨fun f v => ?_, fun f cur => rfl, fun f v => rfl⟩
  simp [onFieldUpdate]

/-- Claim C6, evaluation at the failing inputs: removing the last remaining
mapped state of a peer deletes the mapping but leaves the emptied reflex
record in the list, leaves the peer subscription attached, and throws a
TypeError (from `getRegistryReflexIndex` calling `.filter` on a non-array);
removing a non-last mapping keeps the other mapping but likewise throws. -/
theorem c6_removeReflex_eval :
    removeReflex reflexStEx 7 "online" =
      (⟨[⟨7, []⟩], [7]⟩,
        some "TypeError: getRegistryReflex(...).filter is not a function") ∧
    removeReflex reflexStEx2 7 "online" =
      (⟨[⟨7, [("offline", "disconnected")]⟩], [7]⟩,
        some "TypeError: getRegistryReflex(...).filter is not a function") := by
  decide

/-- Claim C7, counterexample. A registry constructed with the valid initial
state `offline` schedules the deferred transition, and the deferred task
does set the state and invoke the handler — but its event log contains no
`state.changed`, so a subscriber attached synchronously after construction
observes nothing: the transition is not announced like other transitions. -/
theorem c7_counterexample :
    initialStateScheduled regInitEx = true ∧
    (initialStateTask regInitEx).reg.curState = "offline" ∧
    (initialStateTask regInitEx).log.all (fun ev => !isStateChangedEv ev) = true := by
  decide

/-- Claim C7, amended: for every registry whose configured initial state is
valid and differs from the current default, the scheduled deferred task sets
the state directly and invokes the state handler, but records no
`previousState`, runs no hooks, and emits no `state.changed`. -/
theorem c7_initial_state (r : Registry) (h : initialStateScheduled r = true) :
    (initialStateTask r).reg.curState = r.initialstate ∧
    (initialStateTask r).log = [Ev.handlerInvoked r.initialstate] ∧
    (initialStateTask r).reg.prevState = r.prevState ∧
    (initialStateTask r).log.all (fun ev => !isStateChangedEv ev) = true := by
  have hman : managesState r r.initialstate = true := by
    unfold initialStateScheduled at h
    exact (Bool.and_eq_true _ _).mp h |>.2
  have hmem : r.initialstate ∈ r.states := by simpa [managesState] using hman
  unfold initialStateTask
  simp [hmem, isStateChangedEv]

/-- Claim C7, witness for the amended theorem at the concrete registry. -/
theorem c7_witness :
    initialStateScheduled regInitEx = true ∧
    ((initialStateTask regInitEx).reg.curState = regInitEx.initialstate ∧
      (initialStateTask regInitEx).log = [Ev.handlerInvoked regInitEx.initialstate] ∧
      (initialStateTask regInitEx).reg.prevState = regInitEx.prevState ∧
      (initialStateTask regInitEx).log.all (fun ev => !isStateChangedEv ev) = true) :=
  ⟨by decide, c7_initial_state regInitEx (by decide)⟩

/-- Claim C8, evaluation at the failing input: when the event target is
neither a referenced element nor resolvable through the ancestor walk, the
wrapper raises a ReferenceError (the source line reads `retrun`, an
undeclared identifier) instead of silently dropping the event; the user
handler is still never invoked, and in the resolvable cases the derived
reference element is attached and the handler runs. -/
theorem c8_wrapHandler_eval :
    wrapHandlerMethod [1, 2] none 3 =
      HandlerOutcome.jsError "ReferenceError: retrun is not defined" ∧
    wrapHandlerMethod [1, 2] none 2 = HandlerOutcome.invoked 2 ∧
    wrapHandlerMethod [1, 2] (some 1) 5 = HandlerOutcome.invoked 1 := by
  decide

/-- Claim C9: for every reference whose selector matches exactly one
element, `getCollapsedDomStructure` skips compression and returns the single
matched element itself — not a list and not a parent node. -/
theorem c9_single_element (m : RefModel) (e : El) (h : m.matched = [e]) :
    getCollapsedDomStructure m = Except.ok (DomTarget.single e) := by
  unfold getCollapsedDomStructure elementsGet ngnSlice elementGet
  rw [h]
  simp [elementToTarget, Except.map, Except.bind, bind, Except.pure, pure]

/-- Claim C9, witness at a concrete single-match reference. -/
theorem c9_witness :
    refEx.matched = [5] ∧
      getCollapsedDomStructure refEx = Except.ok (DomTarget.single 5) :=
  ⟨rfl, c9_single_element refEx 5 rfl⟩

/-- Claim C10: for every registry holding no reflex record for a peer,
`getRegistryReflexReactions` yields the JavaScript `undefined` (the `{}`
sentinel has no `length`, so the guard cannot catch it), and
`createReflex` consequently throws a TypeError on
`reactions.hasOwnProperty` instead of creating the reflex, leaving the
reflex state untouched. -/
theorem c10_createReflex_absent (st : ReflexState) (peer : RegId)
    (source target : String)
    (habs : st.reflexes.filter (fun rf => rf.registry == peer) = []) :
    getRegistryReflexReactions st peer = none ∧
    createReflex st peer source target =
      (st, some "TypeError: Cannot read property hasOwnProperty of undefined") := by
  have h1 : getRegistryReflex st peer = none := by
    unfold getRegistryReflex
    rw [habs]
  have h2 : getRegistryReflexReactions st peer = none := by
    unfold getRegistryReflexReactions
    rw [h1]
    rfl
  refine ⟨h2, ?_⟩
  unfold createReflex
  rw [h2]

/-- Claim C10, witness at a freshly constructed registry. -/
theorem c10_witness :
    reflexStEmpty.reflexes.filter (fun rf => rf.registry == 3) = [] ∧
    (getRegistryReflexReactions reflexStEmpty 3 = none ∧
      createReflex reflexStEmpty 3 "online" "connected" =
        (reflexStEmpty,
          some "TypeError: Cannot read property hasOwnProperty of undefined")) :=
  ⟨by decide, c10_createReflex_absent reflexStEmpty 3 "online" "connected" (by decide)⟩

end ChassisX
